import Mathlib

/-!
Verification of the Dermazeen skin-analysis expert system
(apps/shared/expert_system: scoring.py, rules.py, services.py).

The development shallowly embeds the scoring pipeline, the severity analyzer,
the answer-ingestion paths and the rule-firing state machine.  Python floats
are modelled as exact rationals; all constants in the source are short decimal
fractions.  Python dicts keyed by strings are modelled either as functions
from String to an optional value (for the user_responses mapping) or as
association lists (for the condition_scores dict handed to the analyzer).
-/

namespace Dermazeen

/-- An answer value as stored in working memory or the user_responses dict:
either a single integer option index or a list of indices (multi-select). -/
inductive Value where
  | vint (n : Int)
  | vlist (l : List Int)
deriving DecidableEq

/-- The user_responses mapping: question id to stored value; none means the
question was never answered (key absent from the dict). -/
def Resps : Type := String → Option Value

/-- ConditionScorer._safe_get with an integer default: a missing key yields the
default, a stored list yields its first element, or the default when the list
is empty. -/
def safeGetI (r : Resps) (k : String) (d : Int) : Int :=
  match r k with
  | none => d
  | some (.vint n) => n
  | some (.vlist []) => d
  | some (.vlist (x :: _)) => x

/-- ConditionScorer._safe_get called with default []: a missing key or a stored
empty list yields the empty list, a stored non-empty list is collapsed to its
first element (an int), and a scalar passes through.  Consequently the callers
that branch on the result being a list only ever see the empty list. -/
def safeGetV (r : Resps) (k : String) : Value :=
  match r k with
  | none => .vlist []
  | some (.vint n) => .vint n
  | some (.vlist []) => .vlist []
  | some (.vlist (x :: _)) => .vint x

/-- The Python pattern responses.get(k, []) or []: a missing key, a falsy
scalar (0) or an empty list give the empty list; everything else passes
through unchanged.  Used for family_history and eczema_triggers in the eczema
scorer and for the location, treatment and pregnancy reads in the severity
analyzer. -/
def getOrEmpty (r : Resps) (k : String) : Value :=
  match r k with
  | none => .vlist []
  | some (.vint n) => if n = 0 then .vlist [] else .vint n
  | some (.vlist l) => .vlist l

/-- The Python pattern v = responses.get(k, 1) or 1 followed by collapsing a
list to its first element (1 when empty): used for condition_duration and
condition_severity in the severity analyzer.  The analyzer reads eczema_itching
the same way except that it never collapses a list; in the program that value
is always a scalar by the time the analyzer runs, so the collapse is
unreachable there. -/
def getScalarDefault1 (r : Resps) (k : String) : Int :=
  match r k with
  | none => 1
  | some (.vint n) => if n = 0 then 1 else n
  | some (.vlist []) => 1
  | some (.vlist (x :: _)) => x

/-- Static helper _static_normalize_choice_value from rules.py: a scalar becomes
a singleton list and a list passes through. -/
def staticNormalizeChoiceValue : Value → List Int
  | .vint n => [n]
  | .vlist l => l

/-- Static helper _static_get_single_value from rules.py: the first element of a
list (none when the list is empty) or the scalar itself. -/
def staticGetSingleValue : Value → Option Int
  | .vint n => some n
  | .vlist [] => none
  | .vlist (x :: _) => some x

/-- Static helper _static_has_exact_value from rules.py: a scalar must equal the
target, a list must be a singleton holding the target. -/
def staticHasExactValue (v : Value) (t : Int) : Bool :=
  match v with
  | .vint n => n == t
  | .vlist [x] => x == t
  | .vlist _ => false

/-- Per-condition accumulator of ConditionScorer: raw score and confidence
factor. -/
structure CondScore where
  score : ℚ
  cf : ℚ
deriving DecidableEq

/-- ConditionScorer._update_condition_score: add the points and cap the score at
100 (no floor), and combine confidence factors Dempster-Shafer style, capping
at 1. -/
def updateConditionScore (s : String → CondScore) (c : String) (points cf : ℚ) :
    String → CondScore :=
  fun c2 =>
    if c2 = c then
      let cur := s c
      let ns := cur.score + points
      let ncf := if cur.cf = 0 then cf else cur.cf + cf * (1 - cur.cf)
      ⟨min ns 100, min ncf 1⟩
    else s c2

/-- The fresh scorer state: every condition starts at score 0 and cf 0.  The
database-seeded entries of the condition_scores dict that the calculators never
touch keep exactly this value. -/
def initScores : String → CondScore := fun _ => ⟨0, 0⟩

/-!
Each calculator of ConditionScorer is embedded as the composition of one step
function per statement block of the Python method, applied in source order.
-/

/-- First block of _calculate_vitiligo_score: the screening match. -/
def vitiligoScreeningStep (r : Resps) (s : String → CondScore) : String → CondScore :=
  if safeGetI r "screening_main" 1 = 2 then updateConditionScore s "vitiligo" 30 0.9 else s

/-- Family-history block of _calculate_vitiligo_score. -/
def vitiligoFamilyStep (r : Resps) (s : String → CondScore) : String → CondScore :=
  match safeGetV r "family_history" with
  | .vlist l => if 2 ∈ l then updateConditionScore s "vitiligo" 20 0.7 else s
  | .vint n => if n = 2 then updateConditionScore s "vitiligo" 20 0.7 else s

/-- Spots block of _calculate_vitiligo_score: points and confidence scale with
the spots answer. -/
def vitiligoSpotsStep (r : Resps) (s : String → CondScore) : String → CondScore :=
  let spots := safeGetI r "vitiligo_spots" 1
  if spots > 1 then
    updateConditionScore s "vitiligo" ((25 + (spots - 2) * 5 : Int) : ℚ)
      (if spots ≥ 4 then 0.8 else 0.6)
  else s

/-- Multiple-locations block of _calculate_vitiligo_score. -/
def vitiligoLocationStep (r : Resps) (s : String → CondScore) : String → CondScore :=
  match safeGetV r "vitiligo_location" with
  | .vlist l =>
      if l.length > 1 then updateConditionScore s "vitiligo" ((l.length * 3 : ℕ) : ℚ) 0.7
      else s
  | .vint _ => s

/-- ConditionScorer._calculate_vitiligo_score. -/
def calculateVitiligoScore (r : Resps) (s : String → CondScore) : String → CondScore :=
  vitiligoLocationStep r (vitiligoSpotsStep r (vitiligoFamilyStep r
    (vitiligoScreeningStep r s)))

/-- Screening block of _calculate_rosacea_score. -/
def rosaceaScreeningStep (r : Resps) (s : String → CondScore) : String → CondScore :=
  if safeGetI r "screening_main" 1 = 3 then updateConditionScore s "rosacea" 30 0.9 else s

/-- Family-history block of _calculate_rosacea_score. -/
def rosaceaFamilyStep (r : Resps) (s : String → CondScore) : String → CondScore :=
  match safeGetV r "family_history" with
  | .vlist l => if 3 ∈ l then updateConditionScore s "rosacea" 15 0.6 else s
  | .vint n => if n = 3 then updateConditionScore s "rosacea" 15 0.6 else s

/-- Redness block of _calculate_rosacea_score. -/
def rosaceaRednessStep (r : Resps) (s : String → CondScore) : String → CondScore :=
  let redness := safeGetI r "rosacea_redness" 1
  if redness > 1 then
    updateConditionScore s "rosacea" ((redness * 6 : Int) : ℚ)
      (if redness ≥ 4 then 0.9 else 0.7)
  else s

/-- Multiple-triggers block of _calculate_rosacea_score. -/
def rosaceaTriggersStep (r : Resps) (s : String → CondScore) : String → CondScore :=
  match safeGetV r "rosacea_triggers" with
  | .vlist l =>
      if l.length > 2 then updateConditionScore s "rosacea" ((l.length * 3 : ℕ) : ℚ) 0.8
      else s
  | .vint _ => s

/-- ConditionScorer._calculate_rosacea_score. -/
def calculateRosaceaScore (r : Resps) (s : String → CondScore) : String → CondScore :=
  rosaceaTriggersStep r (rosaceaRednessStep r (rosaceaFamilyStep r
    (rosaceaScreeningStep r s)))

/-- Screening block of _calculate_eczema_score. -/
def eczemaScreeningStep (r : Resps) (s : String → CondScore) : String → CondScore :=
  if safeGetI r "screening_main" 1 = 4 then updateConditionScore s "eczema" 30 0.9 else s

/-- Family-history block of _calculate_eczema_score.  Unlike the other
calculators this one reads family_history with the plain get-or-empty pattern,
so full lists reach the membership test. -/
def eczemaFamilyStep (r : Resps) (s : String → CondScore) : String → CondScore :=
  match getOrEmpty r "family_history" with
  | .vlist l => if 4 ∈ l then updateConditionScore s "eczema" 15 0.7 else s
  | .vint n => if n = 4 then updateConditionScore s "eczema" 15 0.7 else s

/-- Itching block of _calculate_eczema_score. -/
def eczemaItchingStep (r : Resps) (s : String → CondScore) : String → CondScore :=
  let itching := safeGetI r "eczema_itching" 1
  if itching > 1 then
    updateConditionScore s "eczema" ((itching * 6 : Int) : ℚ)
      (if itching ≥ 4 then 0.9 else 0.7)
  else s

/-- Product-sensitivity block of _calculate_eczema_score. -/
def eczemaSensitivityStep (r : Resps) (s : String → CondScore) : String → CondScore :=
  if safeGetI r "product_sensitivity" 1 ≥ 4 then updateConditionScore s "eczema" 15 0.6
  else s

/-- Triggers block of _calculate_eczema_score, also a plain get-or-empty
read. -/
def eczemaTriggersStep (r : Resps) (s : String → CondScore) : String → CondScore :=
  match getOrEmpty r "eczema_triggers" with
  | .vlist l =>
      if l.length > 2 then updateConditionScore s "eczema" ((l.length * 2 : ℕ) : ℚ) 0.7
      else s
  | .vint _ => s

/-- ConditionScorer._calculate_eczema_score. -/
def calculateEczemaScore (r : Resps) (s : String → CondScore) : String → CondScore :=
  eczemaTriggersStep r (eczemaSensitivityStep r (eczemaItchingStep r
    (eczemaFamilyStep r (eczemaScreeningStep r s))))

/-- Screening block of _calculate_psoriasis_score. -/
def psoriasisScreeningStep (r : Resps) (s : String → CondScore) : String → CondScore :=
  if safeGetI r "screening_main" 1 = 5 then updateConditionScore s "psoriasis" 30 0.9
  else s

/-- Family-history block of _calculate_psoriasis_score. -/
def psoriasisFamilyStep (r : Resps) (s : String → CondScore) : String → CondScore :=
  match safeGetV r "family_history" with
  | .vlist l => if 5 ∈ l then updateConditionScore s "psoriasis" 20 0.8 else s
  | .vint n => if n = 5 then updateConditionScore s "psoriasis" 20 0.8 else s

/-- ConditionScorer._calculate_psoriasis_score. -/
def calculatePsoriasisScore (r : Resps) (s : String → CondScore) : String → CondScore :=
  psoriasisFamilyStep r (psoriasisScreeningStep r s)

/-- Screening block of _calculate_acne_score. -/
def acneScreeningStep (r : Resps) (s : String → CondScore) : String → CondScore :=
  if safeGetI r "screening_main" 1 = 6 then updateConditionScore s "severe_acne" 30 0.9
  else s

/-- T-zone block of _calculate_acne_score. -/
def acneTZoneStep (r : Resps) (s : String → CondScore) : String → CondScore :=
  let tZone := safeGetI r "t_zone_oiliness" 1
  if tZone ≥ 4 then
    updateConditionScore s "severe_acne" (((tZone - 3) * 10 : Int) : ℚ)
      (if tZone = 5 then 0.8 else 0.6)
  else s

/-- Pore-size block of _calculate_acne_score. -/
def acnePoreStep (r : Resps) (s : String → CondScore) : String → CondScore :=
  if safeGetI r "pore_size" 1 ≥ 4 then updateConditionScore s "severe_acne" 15 0.7 else s

/-- Stress block of _calculate_acne_score. -/
def acneStressStep (r : Resps) (s : String → CondScore) : String → CondScore :=
  if safeGetI r "stress_level" 1 ≥ 4 then updateConditionScore s "severe_acne" 10 0.5
  else s

/-- Hormonal block of _calculate_acne_score, applied only for gender 2: the
menstrual-impact ladder followed by the birth-control bonus. -/
def acneHormonalStep (r : Resps) (s : String → CondScore) : String → CondScore :=
  if safeGetI r "gender" 1 = 2 then
    let mi := safeGetI r "menstrual_cycle_acne" 1
    let s :=
      if mi ≥ 4 then updateConditionScore s "severe_acne" 20 0.8
      else if mi ≥ 3 then updateConditionScore s "severe_acne" 15 0.7
      else if mi ≥ 2 then updateConditionScore s "severe_acne" 10 0.6
      else s
    if safeGetI r "hormonal_birth_control" 1 ≥ 2 then
      updateConditionScore s "severe_acne" 5 0.4
    else s
  else s

/-- ConditionScorer._calculate_acne_score. -/
def calculateAcneScore (r : Resps) (s : String → CondScore) : String → CondScore :=
  acneHormonalStep r (acneStressStep r (acnePoreStep r (acneTZoneStep r
    (acneScreeningStep r s))))

/-- Screening block of _calculate_melasma_score: already reduced from 25 to 20
points in the source. -/
def melasmaScreeningStep (r : Resps) (s : String → CondScore) : String → CondScore :=
  if safeGetI r "screening_main" 1 = 8 then updateConditionScore s "melasma" 20 0.8 else s

/-- Patch-size ladder of _calculate_melasma_score. -/
def melasmaPatchesStep (r : Resps) (s : String → CondScore) : String → CondScore :=
  let patches := safeGetI r "melasma_patches" 1
  if patches > 1 then
    if patches = 2 then updateConditionScore s "melasma" 8 0.6
    else if patches = 3 then updateConditionScore s "melasma" 15 0.7
    else if patches = 4 then updateConditionScore s "melasma" 25 0.8
    else updateConditionScore s "melasma" 35 0.9
  else s

/-- Location block of _calculate_melasma_score: minimal points for the very
common facial location, more for multiple locations. -/
def melasmaLocationStep (r : Resps) (s : String → CondScore) : String → CondScore :=
  match safeGetV r "melasma_location" with
  | .vlist l =>
      let s := if 1 ∈ l then updateConditionScore s "melasma" 5 0.6 else s
      if l.length > 1 then updateConditionScore s "melasma" ((l.length * 3 : ℕ) : ℚ) 0.7
      else s
  | .vint n => if n = 1 then updateConditionScore s "melasma" 5 0.6 else s

/-- Triggers block of _calculate_melasma_score: sun, pregnancy and hormonal
triggers, with a bonus only past three triggers, and a scalar
backward-compatibility branch. -/
def melasmaTriggersStep (r : Resps) (s : String → CondScore) : String → CondScore :=
  match safeGetV r "melasma_triggers" with
  | .vlist l =>
      let s := if 1 ∈ l then updateConditionScore s "melasma" 8 0.7 else s
      let s :=
        if 2 ∈ l then updateConditionScore s "melasma" 3 0.5
        else if 3 ∈ l then updateConditionScore s "melasma" 6 0.6
        else s
      if l.length > 3 then
        updateConditionScore s "melasma" ((((l.length : Int) - 3) * 2 : Int) : ℚ) 0.6
      else s
  | .vint n =>
      if n = 1 then updateConditionScore s "melasma" 8 0.7
      else if n = 2 then updateConditionScore s "melasma" 3 0.5
      else if n = 3 then updateConditionScore s "melasma" 6 0.6
      else s

/-- Pregnancy and hormonal block of _calculate_melasma_score, for gender 2
only. -/
def melasmaPregnancyStep (r : Resps) (s : String → CondScore) : String → CondScore :=
  if safeGetI r "gender" 1 = 2 then
    match safeGetV r "melasma_pregnancy_hormones" with
    | .vlist l =>
        if l.length > 0 ∧ 1 ∉ l then
          if 2 ∈ l then updateConditionScore s "melasma" 5 0.6
          else if 3 ∈ l then updateConditionScore s "melasma" 7 0.6
          else if 4 ∈ l then updateConditionScore s "melasma" 4 0.5
          else updateConditionScore s "melasma" ((l.length * 4 : ℕ) : ℚ) 0.5
        else s
    | .vint n =>
        if n > 1 then
          if n = 2 then updateConditionScore s "melasma" 5 0.6
          else if n = 4 then updateConditionScore s "melasma" 4 0.5
          else updateConditionScore s "melasma" ((n * 4 : Int) : ℚ) 0.5
        else s
  else s

/-- Gender and age block of _calculate_melasma_score: the small female and
reproductive-age bonuses, or the negative male adjustment of -3 points. -/
def melasmaGenderAgeStep (r : Resps) (s : String → CondScore) : String → CondScore :=
  let gender := safeGetI r "gender" 1
  if gender = 2 then
    let s := updateConditionScore s "melasma" 3 0.4
    let age := safeGetI r "age" 1
    if 2 ≤ age ∧ age ≤ 4 then updateConditionScore s "melasma" 2 0.3 else s
  else if gender = 1 then updateConditionScore s "melasma" (-3) 0.3
  else s

/-- Sun-exposure block of _calculate_melasma_score. -/
def melasmaSunStep (r : Resps) (s : String → CondScore) : String → CondScore :=
  let sun := safeGetI r "sun_exposure" 1
  if sun ≥ 4 then updateConditionScore s "melasma" 8 0.7
  else if sun ≥ 3 then updateConditionScore s "melasma" 5 0.6
  else s

/-- ConditionScorer._calculate_melasma_score. -/
def calculateMelasmaScore (r : Resps) (s : String → CondScore) : String → CondScore :=
  melasmaSunStep r (melasmaGenderAgeStep r (melasmaPregnancyStep r
    (melasmaTriggersStep r (melasmaLocationStep r (melasmaPatchesStep r
      (melasmaScreeningStep r s))))))

/-- ConditionScorer.calculate_all_scores applied to a fresh scorer. -/
def calculateAllScores (r : Resps) : String → CondScore :=
  calculateMelasmaScore r (calculateAcneScore r (calculatePsoriasisScore r
    (calculateEczemaScore r (calculateRosaceaScore r
      (calculateVitiligoScore r initScores)))))

/-- The condition names the calculators can touch. -/
def trackedConditions : List String :=
  ["vitiligo", "rosacea", "eczema", "psoriasis", "severe_acne", "melasma"]

/-- The condition_scores dict produced by the scorer, as an association list
over the conditions the calculators touch.  The database-seeded entries the
calculators never update keep score 0 and cf 0, and the analyzer compares
weighted scores strictly against a running maximum that starts at 0, so those
entries can never influence its outcome and are omitted. -/
def scoreItems (r : Resps) : List (String × CondScore) :=
  trackedConditions.map (fun c => (c, calculateAllScores r c))

/-- Result record of SeverityAnalyzer.determine_severity_level: the severity
level (enum value string), the classification string, the primary condition
name and the referral flag computed from the score-based check. -/
structure SeverityOutcome where
  severity : String
  classification : String
  primary : String
  autoReferral : Bool
deriving DecidableEq

/-- The loop at the top of determine_severity_level computing the maximum
confidence-weighted score and its condition, starting from 0 and the name
none; comparisons are strict, so the first maximum wins and zero-weight
entries never replace the initial pair. -/
def maxWeightedFold (items : List (String × CondScore)) : ℚ × String :=
  items.foldl
    (fun acc p =>
      let w := p.2.score * p.2.cf
      if w > acc.1 then (w, p.1) else acc)
    (0, "none")

/-- Dict access condition_scores.get(c, dict()).get(score-key, 0) used by the
referral check. -/
def lookupScore : List (String × CondScore) → String → ℚ
  | [], _ => 0
  | p :: rest, c => if p.1 = c then p.2.score else lookupScore rest c

/-- SeverityAnalyzer._check_medical_referral_conditions: facial vitiligo (or
around the eyes) with a vitiligo score over 30, or facial eczema or severe
itching with an eczema score over 30. -/
def checkMedicalReferralConditions (items : List (String × CondScore)) (r : Resps) :
    Bool :=
  let vitiligoFacial :=
    match getOrEmpty r "vitiligo_location" with
    | .vlist l => if 1 ∈ l ∨ 5 ∈ l then true else false
    | .vint n => if n = 1 then true else false
  let eczemaFacial :=
    match getOrEmpty r "eczema_location" with
    | .vlist l => if (1 : Int) ∈ l then true else false
    | .vint n => if n = 1 then true else false
  if lookupScore items "vitiligo" > 30 ∧ vitiligoFacial = true then true
  else if lookupScore items "eczema" > 30 ∧
      (eczemaFacial = true ∨ getScalarDefault1 r "eczema_itching" ≥ 4) then true
  else false

/-- The local condition_duration of determine_severity_level. -/
def conditionDurationOf (r : Resps) : Int := getScalarDefault1 r "condition_duration"

/-- The local condition_severity of determine_severity_level. -/
def conditionSeverityOf (r : Resps) : Int := getScalarDefault1 r "condition_severity"

/-- The treatment_multiplier of determine_severity_level, from the
previous_treatments answer (list or backward-compatible scalar). -/
def treatmentMultOf (r : Resps) : ℚ :=
  match getOrEmpty r "previous_treatments" with
  | .vlist l =>
      if l.length ≥ 3 ∨ 4 ∈ l ∨ 5 ∈ l then 0.3
      else if l.length ≥ 2 ∨ 3 ∈ l then 0.2
      else if (2 : Int) ∈ l then 0.1
      else 0
  | .vint n =>
      if n ≥ 4 then 0.3 else if n ≥ 3 then 0.2 else if n ≥ 2 then 0.1 else 0

/-- The severity_multiplier of determine_severity_level: 1 plus tiered bonuses
for duration and self-reported severity plus the treatment multiplier. -/
def severityMultOf (r : Resps) : ℚ :=
  1 +
    (if conditionDurationOf r ≥ 5 then 0.3
     else if conditionDurationOf r ≥ 4 then 0.2
     else if conditionDurationOf r ≥ 3 then 0.1 else 0) +
    (if conditionSeverityOf r ≥ 4 then 0.4
     else if conditionSeverityOf r ≥ 3 then 0.2
     else if conditionSeverityOf r ≥ 2 then 0.1 else 0) +
    treatmentMultOf r

/-- The adjusted_score of determine_severity_level. -/
def adjustedScoreOf (items : List (String × CondScore)) (r : Resps) : ℚ :=
  (maxWeightedFold items).1 * severityMultOf r

/-- The is_pregnancy_related flag of determine_severity_level: true when the
currently-pregnant choice 2 appears in the melasma_pregnancy_hormones list, or,
only when that value is a truthy non-list, when 2 appears in the
melasma_triggers list.  The leading condition plays no role. -/
def isPregnancyRelatedOf (r : Resps) : Bool :=
  match getOrEmpty r "melasma_pregnancy_hormones", getOrEmpty r "melasma_triggers" with
  | .vlist l, _ => if (2 : Int) ∈ l then true else false
  | .vint _, .vlist l => if (2 : Int) ∈ l then true else false
  | .vint _, .vint _ => false

/-- The relaxation trigger the code actually uses: pregnancy-related evidence
with self-reported severity at most 2. -/
def codeRelaxationApplies (r : Resps) : Bool :=
  if isPregnancyRelatedOf r = true ∧ conditionSeverityOf r ≤ 2 then true else false

/-- The severe_conditions test of determine_severity_level for the two threshold
regimes. -/
def severeLadder (relaxed : Bool) (adjusted mw : ℚ) (dur sev : Int) (tm : ℚ) : Bool :=
  if relaxed = true then
    if adjusted ≥ 90 ∨ sev ≥ 4 ∨ dur ≥ 5 then true else false
  else
    if adjusted ≥ 80 ∨ sev ≥ 4 ∨ (mw ≥ 70 ∧ tm ≥ 0.3) ∨ (dur ≥ 5 ∧ sev ≥ 3) then true
    else false

/-- The moderate_conditions test of determine_severity_level for the two
threshold regimes. -/
def moderateLadder (relaxed : Bool) (adjusted mw : ℚ) (dur sev : Int) : Bool :=
  if relaxed = true then
    if adjusted ≥ 70 ∨ sev ≥ 3 ∨ (dur ≥ 4 ∧ mw ≥ 50) then true else false
  else
    if adjusted ≥ 50 ∨ sev ≥ 3 ∨ mw ≥ 60 ∨ (dur ≥ 4 ∧ mw ≥ 40) then true else false

/-- SeverityAnalyzer.determine_severity_level: an early return driven by the
score-based referral check, otherwise the multiplier-adjusted leading weighted
score classified through the threshold ladders, with the primary condition
reported only above the evidentiary floor of 20. -/
def determineSeverityLevel (items : List (String × CondScore)) (r : Resps) :
    SeverityOutcome :=
  let mw := maxWeightedFold items
  if checkMedicalReferralConditions items r = true then
    ⟨"severe", "SEVERE", mw.2, true⟩
  else
    let relaxed := codeRelaxationApplies r
    let severeConditions := severeLadder relaxed (adjustedScoreOf items r) mw.1
      (conditionDurationOf r) (conditionSeverityOf r) (treatmentMultOf r)
    let moderateConditions := moderateLadder relaxed (adjustedScoreOf items r) mw.1
      (conditionDurationOf r) (conditionSeverityOf r)
    let primary := if mw.1 > 20 then mw.2 else "none"
    if severeConditions = true then ⟨"severe", "SEVERE", primary, false⟩
    else if moderateConditions = true then ⟨"moderate", "MODERATE", primary, false⟩
    else ⟨"mild", "MILD", primary, false⟩

/-- Modelled from the spec sentence, for comparison with the source behaviour:
a variant of determine_severity_level that applies the relaxed ladder exactly
when the leading (maximum weighted-score) condition is the pregnancy and
hormone linked pigmentation condition (melasma) with low self-reported
severity. -/
def determineSeverityLevelSpecRelaxed (items : List (String × CondScore)) (r : Resps) :
    SeverityOutcome :=
  let mw := maxWeightedFold items
  if checkMedicalReferralConditions items r = true then
    ⟨"severe", "SEVERE", mw.2, true⟩
  else
    let relaxed := if mw.2 = "melasma" ∧ conditionSeverityOf r ≤ 2 then true else false
    let severeConditions := severeLadder relaxed (adjustedScoreOf items r) mw.1
      (conditionDurationOf r) (conditionSeverityOf r) (treatmentMultOf r)
    let moderateConditions := moderateLadder relaxed (adjustedScoreOf items r) mw.1
      (conditionDurationOf r) (conditionSeverityOf r)
    let primary := if mw.1 > 20 then mw.2 else "none"
    if severeConditions = true then ⟨"severe", "SEVERE", primary, false⟩
    else if moderateConditions = true then ⟨"moderate", "MODERATE", primary, false⟩
    else ⟨"mild", "MILD", primary, false⟩

/-- The slice of SkinAnalysisEngine.generate_recommendations that records the
final classification and the referral flag: the classification comes from the
severity analyzer alone, while the referral flag also ORs in the presence of
any MedicalReferralRequired fact in working memory. -/
def generateRecommendationsOutcome (referralFactPresent : Bool)
    (items : List (String × CondScore)) (r : Resps) : String × Bool :=
  let o := determineSeverityLevel items r
  (o.classification, referralFactPresent || o.autoReferral)

/-- A declared UserResponse fact.  Both feed_answer and the replay loader split
multi-select answers into one fact per element, so a fact always carries a
scalar. -/
structure ResponseFact where
  questionId : String
  value : Int
deriving DecidableEq

/-- Dict assignment m[k] = v on an association list: overwrite the existing
entry in place or append a new one. -/
def dictSet (m : List (String × Value)) (k : String) (v : Value) :
    List (String × Value) :=
  if m.any (fun p => p.1 == k) then
    m.map (fun p => if p.1 == k then (k, v) else p)
  else m ++ [(k, v)]

/-- Read an association-list dict as a Resps function (keys are unique, so the
first match is the dict entry). -/
def respsOfList : List (String × Value) → Resps
  | [] => fun _ => none
  | p :: rest => fun k => if k = p.1 then some p.2 else respsOfList rest k

/-- The engine state touched by SkinAnalysisEngine.feed_answer: the declared
UserResponse facts, the user_responses dict, and the pending question. -/
structure FeedState where
  facts : List ResponseFact
  userResponses : List (String × Value)
  pending : Option String
deriving DecidableEq

/-- SkinAnalysisEngine.feed_answer: clear the pending question, declare one
UserResponse fact per list element (one fact for a scalar), and store each
element into user_responses in turn, so a multi-select answer leaves only its
last element in the dict.  No validation of any kind is performed and no error
path exists. -/
def feedAnswer (s : FeedState) (qid : String) (v : Value) : FeedState :=
  let s := { s with pending := none }
  match v with
  | .vlist l =>
      l.foldl
        (fun st x =>
          { st with
            facts := st.facts ++ [⟨qid, x⟩]
            userResponses := dictSet st.userResponses qid (.vint x) })
        s
  | .vint n =>
      { s with
        facts := s.facts ++ [⟨qid, n⟩]
        userResponses := dictSet s.userResponses qid (.vint n) }

/-- Feeding a whole answer sequence into a fresh engine. -/
def liveAnswers (seq : List (String × Value)) : FeedState :=
  seq.foldl (fun s p => feedAnswer s p.1 p.2) ⟨[], [], none⟩

/-- The engine state touched by KbsEngineService._load_previous_responses:
declared facts, the user_responses dict and the asked-questions set. -/
structure ReplayState where
  facts : List ResponseFact
  userResponses : List (String × Value)
  asked : List String
deriving DecidableEq

/-- One iteration of KbsEngineService._load_previous_responses: declare one
UserResponse fact per element, declare the question asked, and store the full
decoded value (the whole list for a multi-select) into user_responses. -/
def loadPreviousResponse (s : ReplayState) (qid : String) (v : Value) : ReplayState :=
  let newFacts :=
    match v with
    | .vlist l => s.facts ++ l.map (fun x => (⟨qid, x⟩ : ResponseFact))
    | .vint n => s.facts ++ [⟨qid, n⟩]
  { facts := newFacts
    userResponses := dictSet s.userResponses qid v
    asked := if qid ∈ s.asked then s.asked else s.asked ++ [qid] }

/-- Replaying a stored answer sequence into a fresh engine on resume. -/
def replayAnswers (seq : List (String × Value)) : ReplayState :=
  seq.foldl (fun s p => loadPreviousResponse s p.1 p.2) ⟨[], [], []⟩

/-- The user_responses rebuild performed by the rule calculate_condition_scores:
sweep the declared UserResponse facts in declaration order and store each fact
value, so the last declared element of every question wins and every stored
value is a scalar. -/
def extractResponsesFromFacts (facts : List ResponseFact) : List (String × Value) :=
  facts.foldl (fun m f => dictSet m f.questionId (.vint f.value)) []

/-- The UserResponse facts that one submitted answer declares: one per element
of a list, a single fact for a scalar. -/
def answerFacts (qid : String) (v : Value) : List ResponseFact :=
  match v with
  | .vlist l => l.map fun x => ⟨qid, x⟩
  | .vint n => [⟨qid, n⟩]

/-- The only validation on the submit-answer path, from AnswerSerializer in
assessment/serializers.py together with the filter in SubmitAnswerView: the
value must be a non-empty list of integers at least 1.  No option-range or
per-question arity check exists anywhere in the repository. -/
def answerSerializerAccepts (l : List Int) : Bool :=
  !l.isEmpty && l.all (fun v => 1 ≤ v)

/-- Guard of rule detect_vitiligo_facial_involvement over the declared facts:
some vitiligo_location response element is face (1) or around the eyes (5). -/
def vitiligoFacialRuleFires (facts : List ResponseFact) : Bool :=
  facts.any (fun f => f.questionId == "vitiligo_location" && (f.value == 1 || f.value == 5))

/-- Guard of rule detect_eczema_facial_involvement: some eczema_location
response element is face (1). -/
def eczemaFacialRuleFires (facts : List ResponseFact) : Bool :=
  facts.any (fun f => f.questionId == "eczema_location" && f.value == 1)

/-- Guard of rule detect_severe_eczema_itching: some eczema_itching response
element is at least 4. -/
def eczemaSevereItchingRuleFires (facts : List ResponseFact) : Bool :=
  facts.any (fun f => f.questionId == "eczema_itching" && f.value ≥ 4)

/-- Whether any of the three referral rules has fired, which is exactly when a
MedicalReferralRequired fact is present in working memory. -/
def referralRuleFires (facts : List ResponseFact) : Bool :=
  vitiligoFacialRuleFires facts || eczemaFacialRuleFires facts ||
    eczemaSevereItchingRuleFires facts

/-- The questionnaire phases of shared.enums.QuestionPhase. -/
inductive QPhase where
  | screening
  | basicInfo
  | specificCondition
  | oiliness
  | sensitivity
  | hydration
  | lifestyle
  | analysis
  | complete
deriving DecidableEq

/-- Working-memory snapshot of SkinAnalysisEngine: the CurrentPhase fact, the
declared UserResponse facts, the QuestionAsked marks, the lifestyle sentinel,
the presence of ConditionScore, SkinProfile and RecommendationGenerated facts,
the MedicalReferralRequired facts, and the pending question. -/
structure EngineState where
  phase : Option QPhase
  facts : List ResponseFact
  asked : List String
  lifestyleProcessed : Bool
  hasConditionScore : Bool
  hasSkinProfile : Bool
  hasRecommendation : Bool
  referrals : List (String × String)
  pending : Option String
deriving DecidableEq

/-- The state right after start_assessment declares the screening phase on a
fresh working memory. -/
def initialEngineState : EngineState :=
  ⟨some .screening, [], [], false, false, false, false, [], none⟩

/-- Action of the internal _ask helper when the question exists in the catalog:
declare QuestionAsked and set the pending question.  A catalog miss only logs
and leaves the state unchanged. -/
def askQuestion (s : EngineState) (q : String) : EngineState :=
  { s with asked := s.asked ++ [q], pending := some q }

/-- Action of _change_phase: retract the CurrentPhase fact and declare the new
phase. -/
def changePhase (s : EngineState) (p : QPhase) : EngineState :=
  { s with phase := some p }

/-- The value elements of the declared UserResponse facts for one question;
rule patterns match each such element separately. -/
def respElems (s : EngineState) (qid : String) : List Int :=
  (s.facts.filter (fun f => f.questionId == qid)).map (fun f => f.value)

/-- Appending to the asked set only when absent, as process_lifestyle_data does
for the injected lifestyle questions. -/
def addAskedIfAbsent (l : List String) (q : String) : List String :=
  if q ∈ l then l else l ++ [q]

/-- Action of rule process_lifestyle_data: declare the sentinel, mark the three
lifestyle questions asked and move straight to the analysis phase. -/
def processLifestyleAction (s : EngineState) : EngineState :=
  { s with
    lifestyleProcessed := true
    asked := addAskedIfAbsent (addAskedIfAbsent (addAskedIfAbsent s.asked
      "sun_exposure") "stress_level") "sleep_quality"
    phase := some .analysis }

/-- One engine transition: a rule firing of SkinAnalysisEngine, an external
answer feed, or a service-side answer injection.  Each rule constructor carries
the guard of the corresponding decorated rule; patterns over UserResponse facts
quantify over individual declared elements, exactly as the engine matches one
fact at a time. -/
inductive EngineStep : EngineState → EngineState → Prop where
  | askScreeningQuestion (s : EngineState)
      (hp : s.phase = some .screening) (hq : "screening_main" ∉ s.asked) :
      EngineStep s (askQuestion s "screening_main")
  | askConditionDuration (s : EngineState) (v : Int)
      (hv : v ∈ respElems s "screening_main") (ht : v ≠ 1)
      (hq : "condition_duration" ∉ s.asked) :
      EngineStep s (askQuestion s "condition_duration")
  | askConditionSeverity (s : EngineState) (v : Int)
      (hv : v ∈ respElems s "screening_main") (ht : v ≠ 1)
      (hq : "condition_severity" ∉ s.asked) :
      EngineStep s (askQuestion s "condition_severity")
  | askPreviousTreatments (s : EngineState) (v : Int)
      (hv : v ∈ respElems s "screening_main") (ht : v ≠ 1)
      (hq : "previous_treatments" ∉ s.asked) :
      EngineStep s (askQuestion s "previous_treatments")
  | moveToBasicInfo (s : EngineState)
      (hp : s.phase = some .screening) (ha : "screening_main" ∈ s.asked)
      (hg : (1 : Int) ∈ respElems s "screening_main" ∨
        ("condition_duration" ∈ s.asked ∧ "condition_severity" ∈ s.asked ∧
          "previous_treatments" ∈ s.asked)) :
      EngineStep s (changePhase s .basicInfo)
  | askAge (s : EngineState)
      (hp : s.phase = some .basicInfo) (hq : "age" ∉ s.asked) :
      EngineStep s (askQuestion s "age")
  | askGender (s : EngineState)
      (hp : s.phase = some .basicInfo) (hq : "gender" ∉ s.asked) :
      EngineStep s (askQuestion s "gender")
  | askSkinTone (s : EngineState)
      (hp : s.phase = some .basicInfo) (hq : "skin_tone" ∉ s.asked) :
      EngineStep s (askQuestion s "skin_tone")
  | askFamilyHistory (s : EngineState)
      (hp : s.phase = some .basicInfo) (hq : "family_history" ∉ s.asked) :
      EngineStep s (askQuestion s "family_history")
  | moveToSpecificConditions (s : EngineState)
      (hp : s.phase = some .basicInfo)
      (ha : "age" ∈ s.asked ∧ "gender" ∈ s.asked ∧ "skin_tone" ∈ s.asked ∧
        "family_history" ∈ s.asked) :
      EngineStep s (changePhase s .specificCondition)
  | askVitiligoSpotsFromScreening (s : EngineState)
      (hp : s.phase = some .specificCondition)
      (hv : (2 : Int) ∈ respElems s "screening_main")
      (hq : "vitiligo_spots" ∉ s.asked) :
      EngineStep s (askQuestion s "vitiligo_spots")
  | askVitiligoSpotsFromFamily (s : EngineState)
      (hp : s.phase = some .specificCondition)
      (hv : (2 : Int) ∈ respElems s "family_history")
      (hq : "vitiligo_spots" ∉ s.asked) :
      EngineStep s (askQuestion s "vitiligo_spots")
  | askVitiligoLocation (s : EngineState) (v : Int)
      (hv : v ∈ respElems s "vitiligo_spots") (ht : v > 1)
      (hq : "vitiligo_location" ∉ s.asked) :
      EngineStep s (askQuestion s "vitiligo_location")
  | detectVitiligoFacialInvolvement (s : EngineState) (v : Int)
      (hv : v ∈ respElems s "vitiligo_location") (ht : v = 1 ∨ v = 5) :
      EngineStep s { s with referrals := s.referrals ++ [("vitiligo", "facial_involvement")] }
  | askRosaceaRednessFromScreening (s : EngineState)
      (hp : s.phase = some .specificCondition)
      (hv : (3 : Int) ∈ respElems s "screening_main")
      (hq : "rosacea_redness" ∉ s.asked) :
      EngineStep s (askQuestion s "rosacea_redness")
  | askRosaceaRednessFromFamily (s : EngineState)
      (hp : s.phase = some .specificCondition)
      (hv : (3 : Int) ∈ respElems s "family_history")
      (hq : "rosacea_redness" ∉ s.asked) :
      EngineStep s (askQuestion s "rosacea_redness")
  | askRosaceaTriggers (s : EngineState) (v : Int)
      (hv : v ∈ respElems s "rosacea_redness") (ht : v > 1)
      (hq : "rosacea_triggers" ∉ s.asked) :
      EngineStep s (askQuestion s "rosacea_triggers")
  | askEczemaItchingFromScreening (s : EngineState)
      (hp : s.phase = some .specificCondition)
      (hv : (4 : Int) ∈ respElems s "screening_main")
      (hq : "eczema_itching" ∉ s.asked) :
      EngineStep s (askQuestion s "eczema_itching")
  | askEczemaItchingFromFamily (s : EngineState)
      (hp : s.phase = some .specificCondition)
      (hv : (4 : Int) ∈ respElems s "family_history")
      (hq : "eczema_itching" ∉ s.asked) :
      EngineStep s (askQuestion s "eczema_itching")
  | askEczemaLocation (s : EngineState) (v : Int)
      (hv : v ∈ respElems s "eczema_itching") (ht : v > 1)
      (hq : "eczema_location" ∉ s.asked) :
      EngineStep s (askQuestion s "eczema_location")
  | askEczemaTriggers (s : EngineState) (v : Int)
      (hv : v ∈ respElems s "eczema_itching") (ht : v > 1)
      (hq : "eczema_triggers" ∉ s.asked) :
      EngineStep s (askQuestion s "eczema_triggers")
  | detectEczemaFacialInvolvement (s : EngineState) (v : Int)
      (hv : v ∈ respElems s "eczema_location") (ht : v = 1) :
      EngineStep s { s with referrals := s.referrals ++ [("eczema", "facial_involvement")] }
  | detectSevereEczemaItching (s : EngineState) (v : Int)
      (hv : v ∈ respElems s "eczema_itching") (ht : v ≥ 4) :
      EngineStep s { s with referrals := s.referrals ++ [("eczema", "severe_symptoms")] }
  | askMelasmaPatchesFromScreening (s : EngineState)
      (hp : s.phase = some .specificCondition)
      (hv : (8 : Int) ∈ respElems s "screening_main")
      (hq : "melasma_patches" ∉ s.asked) :
      EngineStep s (askQuestion s "melasma_patches")
  | askMelasmaPatchesFemaleAdult (s : EngineState) (a v : Int)
      (hp : s.phase = some .specificCondition)
      (hg : (2 : Int) ∈ respElems s "gender")
      (hag : a ∈ respElems s "age") (hat : a ≥ 2)
      (hv : v ∈ respElems s "screening_main") (hvt : v ≠ 1)
      (hq : "melasma_patches" ∉ s.asked) :
      EngineStep s (askQuestion s "melasma_patches")
  | askMelasmaLocation (s : EngineState) (v : Int)
      (hv : v ∈ respElems s "melasma_patches") (ht : v > 1)
      (hq : "melasma_location" ∉ s.asked) :
      EngineStep s (askQuestion s "melasma_location")
  | askMelasmaTriggers (s : EngineState) (v : Int)
      (hv : v ∈ respElems s "melasma_patches") (ht : v > 1)
      (hq : "melasma_triggers" ∉ s.asked) :
      EngineStep s (askQuestion s "melasma_triggers")
  | askMelasmaPregnancyHormones (s : EngineState) (v : Int)
      (hv : v ∈ respElems s "melasma_patches") (ht : v > 1)
      (hg : (2 : Int) ∈ respElems s "gender")
      (hq : "melasma_pregnancy_hormones" ∉ s.asked) :
      EngineStep s (askQuestion s "melasma_pregnancy_hormones")
  | askMenstrualCycleAcneFromScreening (s : EngineState)
      (hp : s.phase = some .specificCondition)
      (hv : (6 : Int) ∈ respElems s "screening_main")
      (hg : (2 : Int) ∈ respElems s "gender")
      (hq : "menstrual_cycle_acne" ∉ s.asked) :
      EngineStep s (askQuestion s "menstrual_cycle_acne")
  | askHormonalBirthControl (s : EngineState) (v : Int)
      (hv : v ∈ respElems s "menstrual_cycle_acne") (ht : v > 1)
      (hq : "hormonal_birth_control" ∉ s.asked) :
      EngineStep s (askQuestion s "hormonal_birth_control")
  | moveToOilinessAssessment (s : EngineState)
      (hp : s.phase = some .specificCondition) :
      EngineStep s (changePhase s .oiliness)
  | askTZoneOiliness (s : EngineState)
      (hp : s.phase = some .oiliness) (hq : "t_zone_oiliness" ∉ s.asked) :
      EngineStep s (askQuestion s "t_zone_oiliness")
  | askCheekOiliness (s : EngineState)
      (hp : s.phase = some .oiliness) (hq : "cheek_oiliness" ∉ s.asked) :
      EngineStep s (askQuestion s "cheek_oiliness")
  | askPoreSize (s : EngineState)
      (hp : s.phase = some .oiliness) (hq : "pore_size" ∉ s.asked) :
      EngineStep s (askQuestion s "pore_size")
  | askMenstrualCycleAcneFromOiliness (s : EngineState) (v : Int)
      (hv : v ∈ respElems s "t_zone_oiliness") (ht : v ≥ 4)
      (hg : (2 : Int) ∈ respElems s "gender")
      (hq : "menstrual_cycle_acne" ∉ s.asked) :
      EngineStep s (askQuestion s "menstrual_cycle_acne")
  | moveToSensitivityAssessment (s : EngineState)
      (hp : s.phase = some .oiliness)
      (ha : "t_zone_oiliness" ∈ s.asked ∧ "cheek_oiliness" ∈ s.asked ∧
        "pore_size" ∈ s.asked) :
      EngineStep s (changePhase s .sensitivity)
  | askProductSensitivity (s : EngineState)
      (hp : s.phase = some .sensitivity) (hq : "product_sensitivity" ∉ s.asked) :
      EngineStep s (askQuestion s "product_sensitivity")
  | askEnvironmentalSensitivity (s : EngineState) (v : Int)
      (hv : v ∈ respElems s "product_sensitivity") (ht : v > 1)
      (hq : "environmental_sensitivity" ∉ s.asked) :
      EngineStep s (askQuestion s "environmental_sensitivity")
  | askFragranceSensitivityDetailed (s : EngineState) (v : Int)
      (hp : s.phase = some .sensitivity)
      (hv : v ∈ respElems s "product_sensitivity") (ht : v ≥ 3)
      (hq : "fragrance_sensitivity" ∉ s.asked) :
      EngineStep s (askQuestion s "fragrance_sensitivity")
  | askPreservativeSensitivityDetailed (s : EngineState)
      (hp : s.phase = some .sensitivity) (ha : "fragrance_sensitivity" ∈ s.asked)
      (hq : "preservative_sensitivity" ∉ s.asked) :
      EngineStep s (askQuestion s "preservative_sensitivity")
  | askMetalSensitivityDetailed (s : EngineState)
      (hp : s.phase = some .sensitivity) (ha : "preservative_sensitivity" ∈ s.asked)
      (hq : "metal_sensitivity" ∉ s.asked) :
      EngineStep s (askQuestion s "metal_sensitivity")
  | askBotanicalSensitivityDetailed (s : EngineState)
      (hp : s.phase = some .sensitivity) (ha : "metal_sensitivity" ∈ s.asked)
      (hq : "botanical_sensitivity" ∉ s.asked) :
      EngineStep s (askQuestion s "botanical_sensitivity")
  | moveToHydrationAssessment (s : EngineState)
      (hp : s.phase = some .sensitivity)
      (hv : (1 : Int) ∈ respElems s "product_sensitivity")
      (hg : (1 : Int) ∈ respElems s "product_sensitivity" ∨
        ((2 : Int) ∈ respElems s "product_sensitivity" ∧
          "fragrance_sensitivity" ∉ s.asked) ∨
        "botanical_sensitivity" ∈ s.asked) :
      EngineStep s (changePhase s .hydration)
  | askDrynessFeeling (s : EngineState)
      (hp : s.phase = some .hydration) (hq : "dryness_feeling" ∉ s.asked) :
      EngineStep s (askQuestion s "dryness_feeling")
  | askMoisturizerResponse (s : EngineState) (v : Int)
      (hv : v ∈ respElems s "dryness_feeling") (ht : v > 1)
      (hq : "moisturizer_response" ∉ s.asked) :
      EngineStep s (askQuestion s "moisturizer_response")
  | moveToLifestyleAssessment (s : EngineState)
      (hp : s.phase = some .hydration) (ha : "dryness_feeling" ∈ s.asked)
      (hg : (1 : Int) ∈ respElems s "dryness_feeling" ∨
        "moisturizer_response" ∈ s.asked) :
      EngineStep s (changePhase s .lifestyle)
  | processLifestyleData (s : EngineState)
      (hp : s.phase = some .lifestyle) (hl : s.lifestyleProcessed = false) :
      EngineStep s (processLifestyleAction s)
  | calculateConditionScores (s : EngineState)
      (hp : s.phase = some .analysis) (hc : s.hasConditionScore = false) :
      EngineStep s { s with hasConditionScore := true }
  | determineSkinProfileRule (s : EngineState)
      (hp : s.phase = some .analysis) (hc : s.hasConditionScore = true)
      (hs : s.hasSkinProfile = false) :
      EngineStep s { s with hasSkinProfile := true }
  | generateRecommendationsRule (s : EngineState)
      (hp : s.phase = some .analysis) (hc : s.hasConditionScore = true)
      (hs : s.hasSkinProfile = true) (hr : s.hasRecommendation = false) :
      EngineStep s { s with hasRecommendation := true }
  | moveToComplete (s : EngineState)
      (hp : s.phase = some .analysis) (hr : s.hasRecommendation = true) :
      EngineStep s (changePhase s .complete)
  | displayResults (s : EngineState)
      (hp : s.phase = some .complete) :
      EngineStep s s
  | feedAnswerStep (s : EngineState) (qid : String) (l : List Int) :
      EngineStep s
        { s with
          facts := s.facts ++ l.map (fun x => (⟨qid, x⟩ : ResponseFact))
          pending := none }
  | injectAnswerStep (s : EngineState) (qid : String) (l : List Int) :
      EngineStep s
        { s with
          facts := s.facts ++ l.map (fun x => (⟨qid, x⟩ : ResponseFact))
          asked := addAskedIfAbsent s.asked qid }

/-- KbsEngineService._restore_current_phase: retract any CurrentPhase fact and
declare the phase persisted on the assessment row, whatever it is, onto the
engine as it stands. -/
def restoreCurrentPhase (s : EngineState) (p : QPhase) : EngineState :=
  { s with phase := some p }

/-- One session-level transition: either an engine transition or the service
restoring the persisted phase. -/
inductive SessionStep : EngineState → EngineState → Prop where
  | rule (s t : EngineState) (h : EngineStep s t) : SessionStep s t
  | restore (s : EngineState) (p : QPhase) : SessionStep s (restoreCurrentPhase s p)

/-- A session in which the screening answer is 1 (no specific problems), the
family history reports eczema (4), itching is mild (2) and the eczema location
answer is the face: the facial-involvement referral rule fires while the
numeric eczema evidence stays at 27 points, below the 30-point referral check
threshold. -/
def c1answers : List (String × Value) :=
  [("screening_main", .vint 1), ("family_history", .vint 4),
   ("eczema_itching", .vint 2), ("eczema_location", .vlist [1])]

/-- The UserResponse facts declared while feeding the c1 session. -/
def c1facts : List ResponseFact := (liveAnswers c1answers).facts

/-- The user_responses mapping as the analysis rule rebuilds it for the c1
session. -/
def c1resps : Resps := respsOfList (extractResponsesFromFacts c1facts)

/-- The empty responses mapping: no question was ever answered. -/
def emptyResps : Resps := fun _ => none

/-- The pregnancy melasma acceptance scenario of the spec: melasma screening
with small patches, pregnancy as the only trigger, female, currently pregnant,
mild self-reported severity. -/
def c4answers : List (String × Value) :=
  [("screening_main", .vint 8), ("melasma_patches", .vint 2),
   ("melasma_triggers", .vlist [2]), ("gender", .vint 2),
   ("melasma_pregnancy_hormones", .vlist [2]), ("condition_severity", .vint 1)]

/-- The UserResponse facts declared while feeding the c4 session. -/
def c4facts : List ResponseFact := (liveAnswers c4answers).facts

/-- The user_responses mapping as the analysis rule rebuilds it for the c4
session. -/
def c4resps : Resps := respsOfList (extractResponsesFromFacts c4facts)

/-- Condition scores with eczema leading at weighted score 85.5: between the
default severe threshold (80) and the relaxed one (90). -/
def c5items : List (String × CondScore) := [("eczema", ⟨90, 0.95⟩)]

/-- Responses reporting a current pregnancy with mild severity but no melasma
evidence at all, so the leading condition is eczema. -/
def c5resps : Resps := fun k =>
  if k = "melasma_pregnancy_hormones" then some (.vlist [2])
  else if k = "condition_severity" then some (.vint 1)
  else none

/-- Condition scores whose leading weighted score is 15.5, below the
evidentiary floor of 20, while the raw vitiligo score exceeds the referral
check threshold of 30. -/
def c8items : List (String × CondScore) := [("vitiligo", ⟨31, 0.5⟩)]

/-- Responses placing the vitiligo spots on the face, which triggers the
score-based referral check. -/
def c8resps : Resps := fun k =>
  if k = "vitiligo_location" then some (.vlist [1]) else none

/-- A session state suspended on a pending question, before any answer. -/
def c3state : FeedState := ⟨[], [], some "product_sensitivity"⟩

/-- A single multi-select answer with two selections, enough to separate the
live user_responses bookkeeping from the replay bookkeeping. -/
def c9answers : List (String × Value) := [("melasma_triggers", .vlist [2, 3])]

/-- The bounds that hold for every scorer state built only from non-negative
contributions: scores in [0, 100] and confidence factors in [0, 1]. -/
def BaseInv (s : String → CondScore) : Prop :=
  ∀ c, 0 ≤ (s c).score ∧ (s c).score ≤ 100 ∧ 0 ≤ (s c).cf ∧ (s c).cf ≤ 1

/-- The bounds that hold after the melasma male adjustment may have fired:
scores in [-3, 100] with only melasma allowed below 0, confidence factors in
[0, 1]. -/
def FinalInv (s : String → CondScore) : Prop :=
  ∀ c, -3 ≤ (s c).score ∧ (s c).score ≤ 100 ∧ 0 ≤ (s c).cf ∧ (s c).cf ≤ 1 ∧
    (c ≠ "melasma" → 0 ≤ (s c).score)

/-- The strengthened inductive invariant behind the completion guarantee: the
analysis sentinels are established in dependency order and the COMPLETE phase
needs all of them. -/
def CompletionInv (s : EngineState) : Prop :=
  (s.hasSkinProfile = true → s.hasConditionScore = true) ∧
  (s.hasRecommendation = true → s.hasConditionScore = true ∧ s.hasSkinProfile = true) ∧
  (s.phase = some .complete →
    s.hasRecommendation = true ∧ s.hasConditionScore = true ∧ s.hasSkinProfile = true)

/-- Concrete inputs for the witnesses of the universally quantified theorems. -/
def witResps : Resps := fun k =>
  if k = "vitiligo_location" then some (.vlist [1]) else none

/-- Condition scores used by witnesses where the referral check must hold. -/
def witItems : List (String × CondScore) := [("vitiligo", ⟨31, 1⟩)]

/-! ## Helper lemmas -/

theorem feedFold_facts (qid : String) (l : List Int) :
    ∀ st : FeedState,
      (l.foldl
        (fun st x =>
          { st with
            facts := st.facts ++ [⟨qid, x⟩]
            userResponses := dictSet st.userResponses qid (.vint x) })
        st).facts
      = st.facts ++ l.map (fun x => (⟨qid, x⟩ : ResponseFact)) := by
  induction l with
  | nil => intro st; simp
  | cons x xs ih => intro st; simp [List.foldl, ih]

theorem feedFold_pending (qid : String) (l : List Int) :
    ∀ st : FeedState,
      (l.foldl
        (fun st x =>
          { st with
            facts := st.facts ++ [⟨qid, x⟩]
            userResponses := dictSet st.userResponses qid (.vint x) })
        st).pending
      = st.pending := by
  induction l with
  | nil => intro st; simp
  | cons x xs ih => intro st; simp [List.foldl, ih]

theorem feedAnswer_facts (s : FeedState) (qid : String) (v : Value) :
    (feedAnswer s qid v).facts = s.facts ++ answerFacts qid v := by
  cases v with
  | vint n => simp [feedAnswer, answerFacts]
  | vlist l => simp [feedAnswer, answerFacts, feedFold_facts]

theorem feedAnswer_pending (s : FeedState) (qid : String) (v : Value) :
    (feedAnswer s qid v).pending = none := by
  cases v with
  | vint n => simp [feedAnswer]
  | vlist l => simp [feedAnswer, feedFold_pending]

theorem loadPreviousResponse_facts (s : ReplayState) (qid : String) (v : Value) :
    (loadPreviousResponse s qid v).facts = s.facts ++ answerFacts qid v := by
  cases v with
  | vint n => simp [loadPreviousResponse, answerFacts]
  | vlist l => simp [loadPreviousResponse, answerFacts]

theorem ingestFacts_agree (seq : List (String × Value)) :
    ∀ (fs : FeedState) (rs : ReplayState), fs.facts = rs.facts →
      (seq.foldl (fun s p => feedAnswer s p.1 p.2) fs).facts =
      (seq.foldl (fun s p => loadPreviousResponse s p.1 p.2) rs).facts := by
  induction seq with
  | nil => intro fs rs h; simpa using h
  | cons p rest ih =>
      intro fs rs h
      simp only [List.foldl]
      exact ih _ _ (by rw [feedAnswer_facts, loadPreviousResponse_facts, h])

/-! ## C6 -/

/-- C6: one scoring update yields new_score = min(100, old_score + points), and
the new confidence factor is points_cf when the old one is 0 and otherwise the
Dempster-Shafer combination old_cf + points_cf * (1 - old_cf), capped at 1. -/
theorem C6_update_formula :
    ∀ (s : String → CondScore) (c : String) (p cf : ℚ),
      (updateConditionScore s c p cf c).score = min 100 ((s c).score + p) ∧
      (updateConditionScore s c p cf c).cf =
        (if (s c).cf = 0 then min cf 1 else min ((s c).cf + cf * (1 - (s c).cf)) 1) := by
  intro s c p cf
  unfold updateConditionScore
  simp only [if_pos rfl]
  constructor
  · exact min_comm _ _
  · by_cases h : (s c).cf = 0 <;> simp [h]

/-! ## C10 -/

/-- C10: scalar reads of a list-valued answer use only the first element, so
trailing elements never affect a threshold comparison; an empty list yields the
default in the scorer read and none in the static guard helper. -/
theorem C10_first_element_reads :
    ∀ (r : Resps) (k : String) (d x : Int) (rest : List Int),
      (r k = some (.vlist (x :: rest)) → safeGetI r k d = x) ∧
      (r k = some (.vlist []) → safeGetI r k d = d) ∧
      staticGetSingleValue (.vlist (x :: rest)) = some x ∧
      staticGetSingleValue (.vlist []) = none := by
  intro r k d x rest
  refine ⟨?_, ?_, rfl, rfl⟩ <;> intro h <;> simp [safeGetI, h]

/-- C10 witness: the first element of the stored list [7, 9] is what the scorer
read returns, independent of the 9, and the empty list falls back to the
default. -/
theorem C10_first_element_reads_witness :
    safeGetI (fun k => if k = "q" then some (.vlist [7, 9]) else none) "q" 1 = 7 ∧
    safeGetI (fun k => if k = "e" then some (.vlist []) else none) "e" 1 = 1 := by
  constructor
  · exact (C10_first_element_reads
      (fun k => if k = "q" then some (.vlist [7, 9]) else none) "q" 1 7 [9]).1 (by decide)
  · exact (C10_first_element_reads
      (fun k => if k = "e" then some (.vlist []) else none) "e" 1 7 [9]).2.1 (by decide)

/-! ## C3 -/

/-- C3 counterexample: the index 99 passes the only validation in the
repository, and feeding it asserts a UserResponse fact, records it in
user_responses and clears the pending question, so the session state is not
left unchanged and no InvalidAnswer is surfaced. -/
theorem C3_counterexample :
    answerSerializerAccepts [99] = true ∧
    (feedAnswer c3state "product_sensitivity" (.vlist [99])).facts =
      [⟨"product_sensitivity", 99⟩] ∧
    (feedAnswer c3state "product_sensitivity" (.vlist [99])).userResponses =
      [("product_sensitivity", .vint 99)] ∧
    (feedAnswer c3state "product_sensitivity" (.vlist [99])).pending = none ∧
    feedAnswer c3state "product_sensitivity" (.vlist [99]) ≠ c3state := by
  decide

/-- C3 (amended): the engine performs no option-range or arity validation at
all.  For every state and every submitted list, feed_answer asserts exactly one
UserResponse fact per element and clears the pending question; there is no
rejection path. -/
theorem C3_amended_no_validation :
    ∀ (s : FeedState) (qid : String) (l : List Int),
      (feedAnswer s qid (.vlist l)).facts =
        s.facts ++ l.map (fun x => (⟨qid, x⟩ : ResponseFact)) ∧
      (feedAnswer s qid (.vlist l)).pending = none := by
  intro s qid l
  exact ⟨feedAnswer_facts s qid (.vlist l), feedAnswer_pending s qid (.vlist l)⟩

/-! ## C9 -/

/-- C9 counterexample: after the live session feeds the multi-select answer
[2, 3] for melasma_triggers, user_responses holds the last element 3, while the
resume replay of the same stored answer puts the whole list in user_responses,
so the replayed mapping differs from the live one. -/
theorem C9_counterexample :
    (liveAnswers c9answers).userResponses = [("melasma_triggers", .vint 3)] ∧
    (replayAnswers c9answers).userResponses = [("melasma_triggers", .vlist [2, 3])] ∧
    (liveAnswers c9answers).userResponses ≠ (replayAnswers c9answers).userResponses := by
  decide

/-- C9 (amended): replaying a stored answer sequence declares exactly the same
UserResponse facts as the live session that fed it, in the same order, and the
user_responses mapping the analysis rule later rebuilds from those facts is
therefore also identical; only the intermediate user_responses dict differs for
multi-select answers. -/
theorem C9_amended_replay_facts :
    ∀ seq : List (String × Value),
      (replayAnswers seq).facts = (liveAnswers seq).facts ∧
      extractResponsesFromFacts (replayAnswers seq).facts =
        extractResponsesFromFacts (liveAnswers seq).facts := by
  intro seq
  have h : (liveAnswers seq).facts = (replayAnswers seq).facts :=
    ingestFacts_agree seq ⟨[], [], none⟩ ⟨[], [], []⟩ rfl
  exact ⟨h.symm, by rw [h]⟩

/-! ## C4 -/

/-- C4: for the pregnancy melasma scenario (melasma screening, small patches,
pregnancy as only trigger, female, currently pregnant, mild severity, all other
answers at their defaults) the severity analysis classifies the case as MILD or
MODERATE, never SEVERE, and the final medical_referral.required flag is
false. -/
theorem C4_pregnancy_case :
    ((determineSeverityLevel (scoreItems c4resps) c4resps).classification = "MILD" ∨
      (determineSeverityLevel (scoreItems c4resps) c4resps).classification = "MODERATE") ∧
    (determineSeverityLevel (scoreItems c4resps) c4resps).classification ≠ "SEVERE" ∧
    (referralRuleFires c4facts ||
      (determineSeverityLevel (scoreItems c4resps) c4resps).autoReferral) = false := by
  have hm : extractResponsesFromFacts c4facts =
      [("screening_main", Value.vint 8), ("melasma_patches", Value.vint 2),
       ("melasma_triggers", Value.vint 2), ("gender", Value.vint 2),
       ("melasma_pregnancy_hormones", Value.vint 2), ("condition_severity", Value.vint 1)] := by
    decide
  have hr : c4resps = respsOfList
      [("screening_main", Value.vint 8), ("melasma_patches", Value.vint 2),
       ("melasma_triggers", Value.vint 2), ("gender", Value.vint 2),
       ("melasma_pregnancy_hormones", Value.vint 2), ("condition_severity", Value.vint 1)] := by
    unfold c4resps; rw [hm]
  have hcls : determineSeverityLevel (scoreItems c4resps) c4resps =
      ⟨"mild", "MILD", "melasma", false⟩ := by
    rw [hr]
    norm_num +decide [determineSeverityLevel, scoreItems, trackedConditions,
      calculateAllScores, calculateVitiligoScore, calculateRosaceaScore,
      calculateEczemaScore, calculatePsoriasisScore, calculateAcneScore,
      calculateMelasmaScore, vitiligoScreeningStep, vitiligoFamilyStep, vitiligoSpotsStep,
      vitiligoLocationStep, rosaceaScreeningStep, rosaceaFamilyStep,
      rosaceaRednessStep, rosaceaTriggersStep, eczemaScreeningStep,
      eczemaFamilyStep, eczemaItchingStep, eczemaSensitivityStep,
      eczemaTriggersStep, psoriasisScreeningStep, psoriasisFamilyStep,
      acneScreeningStep, acneTZoneStep, acnePoreStep, acneStressStep,
      acneHormonalStep, melasmaScreeningStep, melasmaPatchesStep,
      melasmaLocationStep, melasmaTriggersStep, melasmaPregnancyStep,
      melasmaGenderAgeStep, melasmaSunStep, updateConditionScore, initScores, safeGetI, safeGetV,
      getOrEmpty, getScalarDefault1, maxWeightedFold, lookupScore,
      checkMedicalReferralConditions, conditionDurationOf, conditionSeverityOf,
      treatmentMultOf, severityMultOf, adjustedScoreOf, isPregnancyRelatedOf,
      codeRelaxationApplies, severeLadder, moderateLadder, respsOfList]
  rw [hcls]
  refine ⟨Or.inl rfl, by decide, ?_⟩
  have hf : referralRuleFires c4facts = false := by decide
  rw [hf]
  rfl

/-! ## C1 -/

/-- C1 counterexample: in the c1 session the eczema facial-involvement rule has
fired, so a MedicalReferralRequired fact is in working memory, yet the final
classification recorded by generate_recommendations is MILD, not SEVERE; only
the referral flag is forced to true. -/
theorem C1_counterexample :
    referralRuleFires c1facts = true ∧
    (generateRecommendationsOutcome (referralRuleFires c1facts)
      (scoreItems c1resps) c1resps).1 = "MILD" ∧
    (generateRecommendationsOutcome (referralRuleFires c1facts)
      (scoreItems c1resps) c1resps).2 = true := by
  have hf : referralRuleFires c1facts = true := by decide
  have hm : extractResponsesFromFacts c1facts =
      [("screening_main", Value.vint 1), ("family_history", Value.vint 4),
       ("eczema_itching", Value.vint 2), ("eczema_location", Value.vint 1)] := by
    decide
  have hr : c1resps = respsOfList
      [("screening_main", Value.vint 1), ("family_history", Value.vint 4),
       ("eczema_itching", Value.vint 2), ("eczema_location", Value.vint 1)] := by
    unfold c1resps; rw [hm]
  have hcls : determineSeverityLevel (scoreItems c1resps) c1resps =
      ⟨"mild", "MILD", "eczema", false⟩ := by
    rw [hr]
    norm_num +decide [determineSeverityLevel, scoreItems, trackedConditions,
      calculateAllScores, calculateVitiligoScore, calculateRosaceaScore,
      calculateEczemaScore, calculatePsoriasisScore, calculateAcneScore,
      calculateMelasmaScore, vitiligoScreeningStep, vitiligoFamilyStep, vitiligoSpotsStep,
      vitiligoLocationStep, rosaceaScreeningStep, rosaceaFamilyStep,
      rosaceaRednessStep, rosaceaTriggersStep, eczemaScreeningStep,
      eczemaFamilyStep, eczemaItchingStep, eczemaSensitivityStep,
      eczemaTriggersStep, psoriasisScreeningStep, psoriasisFamilyStep,
      acneScreeningStep, acneTZoneStep, acnePoreStep, acneStressStep,
      acneHormonalStep, melasmaScreeningStep, melasmaPatchesStep,
      melasmaLocationStep, melasmaTriggersStep, melasmaPregnancyStep,
      melasmaGenderAgeStep, melasmaSunStep, updateConditionScore, initScores, safeGetI, safeGetV,
      getOrEmpty, getScalarDefault1, maxWeightedFold, lookupScore,
      checkMedicalReferralConditions, conditionDurationOf, conditionSeverityOf,
      treatmentMultOf, severityMultOf, adjustedScoreOf, isPregnancyRelatedOf,
      codeRelaxationApplies, severeLadder, moderateLadder, respsOfList]
  rw [hf]
  refine ⟨rfl, ?_, ?_⟩ <;> simp [generateRecommendationsOutcome, hcls]

/-- C1 (amended): a MedicalReferralRequired fact forces the report's referral
flag to true, but the recorded classification always equals what the severity
analyzer computes from the scores and answers alone; it is SEVERE whenever the
score-based referral check holds, and otherwise follows the numeric threshold
ladders and can be MILD or MODERATE even with a referral fact present. -/
theorem C1_amended_referral_flag :
    ∀ (b : Bool) (items : List (String × CondScore)) (r : Resps),
      (generateRecommendationsOutcome true items r).2 = true ∧
      (generateRecommendationsOutcome b items r).1 =
        (determineSeverityLevel items r).classification ∧
      (checkMedicalReferralConditions items r = true →
        (generateRecommendationsOutcome b items r).1 = "SEVERE") := by
  intro b items r
  refine ⟨rfl, rfl, ?_⟩
  intro h
  simp [generateRecommendationsOutcome, determineSeverityLevel, h]

/-- C1 amended witness: with a facial vitiligo answer and a vitiligo score of
31 the score-based check holds and the classification is SEVERE. -/
theorem C1_amended_referral_flag_witness :
    (generateRecommendationsOutcome true witItems witResps).1 = "SEVERE" := by
  have h : checkMedicalReferralConditions witItems witResps = true := by
    norm_num +decide [checkMedicalReferralConditions, lookupScore, getOrEmpty,
      getScalarDefault1, witItems, witResps]
  exact (C1_amended_referral_flag true witItems witResps).2.2 h

/-! ## C5 -/

/-- C5 counterexample: with eczema leading at weighted score 85.5 and a
currently-pregnant answer with mild severity, the code still applies the
relaxed thresholds and returns MODERATE, while the spec-worded variant, which
relaxes only when the leading condition is melasma, returns SEVERE. -/
theorem C5_counterexample :
    (maxWeightedFold c5items).2 = "eczema" ∧
    (determineSeverityLevel c5items c5resps).classification = "MODERATE" ∧
    (determineSeverityLevelSpecRelaxed c5items c5resps).classification = "SEVERE" := by
  norm_num +decide [c5items, c5resps, maxWeightedFold, determineSeverityLevel,
    determineSeverityLevelSpecRelaxed, checkMedicalReferralConditions, lookupScore,
    getOrEmpty, getScalarDefault1, conditionDurationOf, conditionSeverityOf,
    treatmentMultOf, severityMultOf, adjustedScoreOf, isPregnancyRelatedOf,
    codeRelaxationApplies, severeLadder, moderateLadder]

/-- C5 (amended): in the non-referral path the classification is produced by
the two threshold ladders (relaxed: SEVERE at adjusted 90 or duration 5 and up,
MODERATE at adjusted 70; default: SEVERE at adjusted 80, MODERATE at adjusted
50, with the secondary severity, duration and treatment disjuncts of the code),
and the relaxed regime is selected exactly by the currently-pregnant indicator
combined with self-reported severity at most 2, independent of which condition
leads. -/
theorem C5_amended_threshold_selection :
    ∀ (items : List (String × CondScore)) (r : Resps),
      checkMedicalReferralConditions items r = false →
      (determineSeverityLevel items r).classification =
        (if severeLadder (codeRelaxationApplies r) (adjustedScoreOf items r)
            (maxWeightedFold items).1 (conditionDurationOf r) (conditionSeverityOf r)
            (treatmentMultOf r) = true then "SEVERE"
         else if moderateLadder (codeRelaxationApplies r) (adjustedScoreOf items r)
            (maxWeightedFold items).1 (conditionDurationOf r)
            (conditionSeverityOf r) = true then "MODERATE"
         else "MILD") := by
  intro items r h
  simp only [determineSeverityLevel, h]
  split
  · simp_all
  · split <;> split <;> simp_all

/-- C5 amended witness: with no scores and no answers the default ladders apply
and everything stays MILD. -/
theorem C5_amended_threshold_selection_witness :
    (determineSeverityLevel ([] : List (String × CondScore)) emptyResps).classification =
      "MILD" := by
  have h : checkMedicalReferralConditions [] emptyResps = false := by
    norm_num +decide [checkMedicalReferralConditions, lookupScore, getOrEmpty,
      getScalarDefault1, emptyResps]
  rw [C5_amended_threshold_selection [] emptyResps h]
  norm_num +decide [severeLadder, moderateLadder, codeRelaxationApplies,
    isPregnancyRelatedOf, adjustedScoreOf, severityMultOf, treatmentMultOf,
    conditionDurationOf, conditionSeverityOf, maxWeightedFold, getOrEmpty,
    getScalarDefault1, emptyResps]

/-! ## C8 -/

/-- C8 counterexample: a vitiligo score of 31 with cf 0.5 gives a maximum
weighted score of 15.5, below the evidentiary floor of 20, yet with a facial
location answer the referral early return reports vitiligo as the primary
condition instead of none. -/
theorem C8_counterexample :
    (maxWeightedFold c8items).1 ≤ 20 ∧
    (determineSeverityLevel c8items c8resps).primary = "vitiligo" := by
  norm_num +decide [c8items, c8resps, maxWeightedFold, determineSeverityLevel,
    checkMedicalReferralConditions, lookupScore, getOrEmpty, getScalarDefault1]

/-- C8 (amended): when the score-based referral check is false, the returned
primary condition is none exactly when the maximum weighted score does not
exceed 20 and the leading condition name otherwise; when the check is true, the
early return reports the leading condition name regardless of the floor. -/
theorem C8_amended_primary :
    ∀ (items : List (String × CondScore)) (r : Resps),
      (checkMedicalReferralConditions items r = false →
        (determineSeverityLevel items r).primary =
          (if (maxWeightedFold items).1 > 20 then (maxWeightedFold items).2
           else "none")) ∧
      (checkMedicalReferralConditions items r = true →
        (determineSeverityLevel items r).primary = (maxWeightedFold items).2) := by
  intro items r
  constructor <;> intro h <;> simp only [determineSeverityLevel, h]
  · split
    · simp_all
    · split <;> split <;> simp_all
  · simp

/-- C8 amended witness: with no scores and no answers the check is false, the
maximum weighted score is 0 and the primary condition is none. -/
theorem C8_amended_primary_witness :
    (determineSeverityLevel ([] : List (String × CondScore)) emptyResps).primary =
      "none" := by
  have h : checkMedicalReferralConditions [] emptyResps = false := by
    norm_num +decide [checkMedicalReferralConditions, lookupScore, getOrEmpty,
      getScalarDefault1, emptyResps]
  rw [(C8_amended_primary [] emptyResps).1 h]
  norm_num [maxWeightedFold]

/-! ## C2 counterexample -/

/-- C2 counterexample: with no answers at all the gender read defaults to male
and the melasma male adjustment stores a melasma score of -3, so the stored
score leaves the interval [0, 100]. -/
theorem C2_counterexample :
    (calculateAllScores emptyResps "melasma").score = -3 ∧
    ¬ 0 ≤ (calculateAllScores emptyResps "melasma").score := by
  norm_num +decide [calculateAllScores, calculateVitiligoScore, calculateRosaceaScore,
    calculateEczemaScore, calculatePsoriasisScore, calculateAcneScore,
    calculateMelasmaScore, vitiligoScreeningStep, vitiligoFamilyStep, vitiligoSpotsStep,
      vitiligoLocationStep, rosaceaScreeningStep, rosaceaFamilyStep,
      rosaceaRednessStep, rosaceaTriggersStep, eczemaScreeningStep,
      eczemaFamilyStep, eczemaItchingStep, eczemaSensitivityStep,
      eczemaTriggersStep, psoriasisScreeningStep, psoriasisFamilyStep,
      acneScreeningStep, acneTZoneStep, acnePoreStep, acneStressStep,
      acneHormonalStep, melasmaScreeningStep, melasmaPatchesStep,
      melasmaLocationStep, melasmaTriggersStep, melasmaPregnancyStep,
      melasmaGenderAgeStep, melasmaSunStep, updateConditionScore, initScores, safeGetI, safeGetV,
    getOrEmpty, emptyResps]

/-! ## C2 invariant lemmas -/

theorem baseInv_initScores : BaseInv initScores := by
  intro c
  norm_num [initScores]

theorem updateConditionScore_base (s : String → CondScore) (c : String) (p cf : ℚ)
    (hs : BaseInv s) (hp : 0 ≤ p) (hcf : 0 ≤ cf) :
    BaseInv (updateConditionScore s c p cf) := by
  intro c2
  by_cases h : c2 = c
  · obtain ⟨h1, h2, h3, h4⟩ := hs c
    simp only [updateConditionScore, if_pos h]
    refine ⟨le_min (by linarith) (by norm_num), min_le_right _ _, ?_, min_le_right _ _⟩
    by_cases hz : (s c).cf = 0
    · rw [if_pos hz]
      exact le_min hcf (by norm_num)
    · rw [if_neg hz]
      refine le_min ?_ (by norm_num)
      nlinarith [mul_nonneg hcf (by linarith : (0 : ℚ) ≤ 1 - (s c).cf)]
  · simp only [updateConditionScore, if_neg h]
    exact hs c2

theorem baseInv_ite (b : Prop) [Decidable b] (t e : String → CondScore)
    (ht : b → BaseInv t) (he : ¬ b → BaseInv e) : BaseInv (if b then t else e) := by
  by_cases h : b
  · rw [if_pos h]; exact ht h
  · rw [if_neg h]; exact he h

theorem finalInv_of_base (s : String → CondScore) (hs : BaseInv s) : FinalInv s := by
  intro c
  obtain ⟨h1, h2, h3, h4⟩ := hs c
  exact ⟨by linarith, h2, h3, h4, fun _ => h1⟩

theorem updateConditionScore_final (s : String → CondScore) (c : String) (p cf : ℚ)
    (hs : FinalInv s) (hp : 0 ≤ p) (hcf : 0 ≤ cf) :
    FinalInv (updateConditionScore s c p cf) := by
  intro c2
  by_cases h : c2 = c
  · obtain ⟨h1, h2, h3, h4, h5⟩ := hs c
    simp only [updateConditionScore, if_pos h]
    refine ⟨le_min (by linarith) (by norm_num), min_le_right _ _, ?_, min_le_right _ _, ?_⟩
    · by_cases hz : (s c).cf = 0
      · rw [if_pos hz]
        exact le_min hcf (by norm_num)
      · rw [if_neg hz]
        refine le_min ?_ (by norm_num)
        nlinarith [mul_nonneg hcf (by linarith : (0 : ℚ) ≤ 1 - (s c).cf)]
    · intro hc
      rw [h] at hc
      exact le_min (by linarith [h5 hc]) (by norm_num)
  · simp only [updateConditionScore, if_neg h]
    exact hs c2

theorem finalInv_ite (b : Prop) [Decidable b] (t e : String → CondScore)
    (ht : b → FinalInv t) (he : ¬ b → FinalInv e) : FinalInv (if b then t else e) := by
  by_cases h : b
  · rw [if_pos h]; exact ht h
  · rw [if_neg h]; exact he h

theorem updateConditionScore_male (s : String → CondScore) (hs : BaseInv s) :
    FinalInv (updateConditionScore s "melasma" (-3) 0.3) := by
  intro c2
  by_cases h : c2 = "melasma"
  · obtain ⟨h1, h2, h3, h4⟩ := hs "melasma"
    simp only [updateConditionScore, if_pos h]
    refine ⟨le_min (by linarith) (by norm_num), min_le_right _ _, ?_, min_le_right _ _, ?_⟩
    · by_cases hz : (s "melasma").cf = 0
      · rw [if_pos hz]
        norm_num
      · rw [if_neg hz]
        refine le_min ?_ (by norm_num)
        nlinarith [mul_nonneg (by norm_num : (0 : ℚ) ≤ (0.3 : ℚ))
          (by linarith : (0 : ℚ) ≤ 1 - (s "melasma").cf)]
    · intro hc
      rw [h] at hc
      exact absurd rfl hc
  · simp only [updateConditionScore, if_neg h]
    obtain ⟨h1, h2, h3, h4⟩ := hs c2
    exact ⟨by linarith, h2, h3, h4, fun _ => h1⟩

theorem vitiligoScreeningStep_base (r : Resps) (s : String → CondScore)
    (h : BaseInv s) : BaseInv (vitiligoScreeningStep r s) := by
  simp only [vitiligoScreeningStep]
  repeat
    first
      | exact h
      | split
      | refine updateConditionScore_base _ _ _ _ ?_ ?_ ?_
      | (rw [Int.cast_nonneg]; omega)
      | positivity

theorem vitiligoFamilyStep_base (r : Resps) (s : String → CondScore)
    (h : BaseInv s) : BaseInv (vitiligoFamilyStep r s) := by
  simp only [vitiligoFamilyStep]
  repeat
    first
      | exact h
      | split
      | refine updateConditionScore_base _ _ _ _ ?_ ?_ ?_
      | (rw [Int.cast_nonneg]; omega)
      | positivity

theorem vitiligoSpotsStep_base (r : Resps) (s : String → CondScore)
    (h : BaseInv s) : BaseInv (vitiligoSpotsStep r s) := by
  simp only [vitiligoSpotsStep]
  repeat
    first
      | exact h
      | split
      | refine updateConditionScore_base _ _ _ _ ?_ ?_ ?_
      | (rw [Int.cast_nonneg]; omega)
      | positivity

theorem vitiligoLocationStep_base (r : Resps) (s : String → CondScore)
    (h : BaseInv s) : BaseInv (vitiligoLocationStep r s) := by
  simp only [vitiligoLocationStep]
  repeat
    first
      | exact h
      | split
      | refine updateConditionScore_base _ _ _ _ ?_ ?_ ?_
      | (rw [Int.cast_nonneg]; omega)
      | positivity

theorem calculateVitiligoScore_base (r : Resps) (s : String → CondScore)
    (h : BaseInv s) : BaseInv (calculateVitiligoScore r s) :=
  vitiligoLocationStep_base r _ (vitiligoSpotsStep_base r _
    (vitiligoFamilyStep_base r _ (vitiligoScreeningStep_base r _ h)))

theorem rosaceaScreeningStep_base (r : Resps) (s : String → CondScore)
    (h : BaseInv s) : BaseInv (rosaceaScreeningStep r s) := by
  simp only [rosaceaScreeningStep]
  repeat
    first
      | exact h
      | split
      | refine updateConditionScore_base _ _ _ _ ?_ ?_ ?_
      | (rw [Int.cast_nonneg]; omega)
      | positivity

theorem rosaceaFamilyStep_base (r : Resps) (s : String → CondScore)
    (h : BaseInv s) : BaseInv (rosaceaFamilyStep r s) := by
  simp only [rosaceaFamilyStep]
  repeat
    first
      | exact h
      | split
      | refine updateConditionScore_base _ _ _ _ ?_ ?_ ?_
      | (rw [Int.cast_nonneg]; omega)
      | positivity

theorem rosaceaRednessStep_base (r : Resps) (s : String → CondScore)
    (h : BaseInv s) : BaseInv (rosaceaRednessStep r s) := by
  simp only [rosaceaRednessStep]
  repeat
    first
      | exact h
      | split
      | refine updateConditionScore_base _ _ _ _ ?_ ?_ ?_
      | (rw [Int.cast_nonneg]; omega)
      | positivity

theorem rosaceaTriggersStep_base (r : Resps) (s : String → CondScore)
    (h : BaseInv s) : BaseInv (rosaceaTriggersStep r s) := by
  simp only [rosaceaTriggersStep]
  repeat
    first
      | exact h
      | split
      | refine updateConditionScore_base _ _ _ _ ?_ ?_ ?_
      | (rw [Int.cast_nonneg]; omega)
      | positivity

theorem calculateRosaceaScore_base (r : Resps) (s : String → CondScore)
    (h : BaseInv s) : BaseInv (calculateRosaceaScore r s) :=
  rosaceaTriggersStep_base r _ (rosaceaRednessStep_base r _
    (rosaceaFamilyStep_base r _ (rosaceaScreeningStep_base r _ h)))

theorem eczemaScreeningStep_base (r : Resps) (s : String → CondScore)
    (h : BaseInv s) : BaseInv (eczemaScreeningStep r s) := by
  simp only [eczemaScreeningStep]
  repeat
    first
      | exact h
      | split
      | refine updateConditionScore_base _ _ _ _ ?_ ?_ ?_
      | (rw [Int.cast_nonneg]; omega)
      | positivity

theorem eczemaFamilyStep_base (r : Resps) (s : String → CondScore)
    (h : BaseInv s) : BaseInv (eczemaFamilyStep r s) := by
  simp only [eczemaFamilyStep]
  repeat
    first
      | exact h
      | split
      | refine updateConditionScore_base _ _ _ _ ?_ ?_ ?_
      | (rw [Int.cast_nonneg]; omega)
      | positivity

theorem eczemaItchingStep_base (r : Resps) (s : String → CondScore)
    (h : BaseInv s) : BaseInv (eczemaItchingStep r s) := by
  simp only [eczemaItchingStep]
  repeat
    first
      | exact h
      | split
      | refine updateConditionScore_base _ _ _ _ ?_ ?_ ?_
      | (rw [Int.cast_nonneg]; omega)
      | positivity

theorem eczemaSensitivityStep_base (r : Resps) (s : String → CondScore)
    (h : BaseInv s) : BaseInv (eczemaSensitivityStep r s) := by
  simp only [eczemaSensitivityStep]
  repeat
    first
      | exact h
      | split
      | refine updateConditionScore_base _ _ _ _ ?_ ?_ ?_
      | (rw [Int.cast_nonneg]; omega)
      | positivity

theorem eczemaTriggersStep_base (r : Resps) (s : String → CondScore)
    (h : BaseInv s) : BaseInv (eczemaTriggersStep r s) := by
  simp only [eczemaTriggersStep]
  repeat
    first
      | exact h
      | split
      | refine updateConditionScore_base _ _ _ _ ?_ ?_ ?_
      | (rw [Int.cast_nonneg]; omega)
      | positivity

theorem calculateEczemaScore_base (r : Resps) (s : String → CondScore)
    (h : BaseInv s) : BaseInv (calculateEczemaScore r s) :=
  eczemaTriggersStep_base r _ (eczemaSensitivityStep_base r _
    (eczemaItchingStep_base r _ (eczemaFamilyStep_base r _
      (eczemaScreeningStep_base r _ h))))

theorem psoriasisScreeningStep_base (r : Resps) (s : String → CondScore)
    (h : BaseInv s) : BaseInv (psoriasisScreeningStep r s) := by
  simp only [psoriasisScreeningStep]
  repeat
    first
      | exact h
      | split
      | refine updateConditionScore_base _ _ _ _ ?_ ?_ ?_
      | (rw [Int.cast_nonneg]; omega)
      | positivity

theorem psoriasisFamilyStep_base (r : Resps) (s : String → CondScore)
    (h : BaseInv s) : BaseInv (psoriasisFamilyStep r s) := by
  simp only [psoriasisFamilyStep]
  repeat
    first
      | exact h
      | split
      | refine updateConditionScore_base _ _ _ _ ?_ ?_ ?_
      | (rw [Int.cast_nonneg]; omega)
      | positivity

theorem calculatePsoriasisScore_base (r : Resps) (s : String → CondScore)
    (h : BaseInv s) : BaseInv (calculatePsoriasisScore r s) :=
  psoriasisFamilyStep_base r _ (psoriasisScreeningStep_base r _ h)

theorem acneScreeningStep_base (r : Resps) (s : String → CondScore)
    (h : BaseInv s) : BaseInv (acneScreeningStep r s) := by
  simp only [acneScreeningStep]
  repeat
    first
      | exact h
      | split
      | refine updateConditionScore_base _ _ _ _ ?_ ?_ ?_
      | (rw [Int.cast_nonneg]; omega)
      | positivity

theorem acneTZoneStep_base (r : Resps) (s : String → CondScore)
    (h : BaseInv s) : BaseInv (acneTZoneStep r s) := by
  simp only [acneTZoneStep]
  repeat
    first
      | exact h
      | split
      | refine updateConditionScore_base _ _ _ _ ?_ ?_ ?_
      | (rw [Int.cast_nonneg]; omega)
      | positivity

theorem acnePoreStep_base (r : Resps) (s : String → CondScore)
    (h : BaseInv s) : BaseInv (acnePoreStep r s) := by
  simp only [acnePoreStep]
  repeat
    first
      | exact h
      | split
      | refine updateConditionScore_base _ _ _ _ ?_ ?_ ?_
      | (rw [Int.cast_nonneg]; omega)
      | positivity

theorem acneStressStep_base (r : Resps) (s : String → CondScore)
    (h : BaseInv s) : BaseInv (acneStressStep r s) := by
  simp only [acneStressStep]
  repeat
    first
      | exact h
      | split
      | refine updateConditionScore_base _ _ _ _ ?_ ?_ ?_
      | (rw [Int.cast_nonneg]; omega)
      | positivity

theorem acneHormonalStep_base (r : Resps) (s : String → CondScore)
    (h : BaseInv s) : BaseInv (acneHormonalStep r s) := by
  simp only [acneHormonalStep]
  repeat
    first
      | exact h
      | split
      | refine updateConditionScore_base _ _ _ _ ?_ ?_ ?_
      | (rw [Int.cast_nonneg]; omega)
      | positivity

theorem calculateAcneScore_base (r : Resps) (s : String → CondScore)
    (h : BaseInv s) : BaseInv (calculateAcneScore r s) :=
  acneHormonalStep_base r _ (acneStressStep_base r _ (acnePoreStep_base r _
    (acneTZoneStep_base r _ (acneScreeningStep_base r _ h))))

theorem melasmaScreeningStep_base (r : Resps) (s : String → CondScore)
    (h : BaseInv s) : BaseInv (melasmaScreeningStep r s) := by
  simp only [melasmaScreeningStep]
  repeat
    first
      | exact h
      | split
      | refine updateConditionScore_base _ _ _ _ ?_ ?_ ?_
      | (rw [Int.cast_nonneg]; omega)
      | positivity

theorem melasmaPatchesStep_base (r : Resps) (s : String → CondScore)
    (h : BaseInv s) : BaseInv (melasmaPatchesStep r s) := by
  simp only [melasmaPatchesStep]
  repeat
    first
      | exact h
      | split
      | refine updateConditionScore_base _ _ _ _ ?_ ?_ ?_
      | (rw [Int.cast_nonneg]; omega)
      | positivity

theorem melasmaLocationStep_base (r : Resps) (s : String → CondScore)
    (h : BaseInv s) : BaseInv (melasmaLocationStep r s) := by
  simp only [melasmaLocationStep]
  repeat
    first
      | exact h
      | split
      | refine updateConditionScore_base _ _ _ _ ?_ ?_ ?_
      | (rw [Int.cast_nonneg]; omega)
      | positivity

theorem melasmaTriggersStep_base (r : Resps) (s : String → CondScore)
    (h : BaseInv s) : BaseInv (melasmaTriggersStep r s) := by
  simp only [melasmaTriggersStep]
  repeat
    first
      | exact h
      | split
      | refine updateConditionScore_base _ _ _ _ ?_ ?_ ?_
      | (rw [Int.cast_nonneg]; omega)
      | positivity

theorem melasmaPregnancyStep_base (r : Resps) (s : String → CondScore)
    (h : BaseInv s) : BaseInv (melasmaPregnancyStep r s) := by
  simp only [melasmaPregnancyStep]
  repeat
    first
      | exact h
      | split
      | refine updateConditionScore_base _ _ _ _ ?_ ?_ ?_
      | (rw [Int.cast_nonneg]; omega)
      | positivity

theorem melasmaGenderAgeStep_final (r : Resps) (s : String → CondScore)
    (h : BaseInv s) : FinalInv (melasmaGenderAgeStep r s) := by
  simp only [melasmaGenderAgeStep]
  split
  · apply finalInv_of_base
    repeat
      first
        | exact h
        | split
        | refine updateConditionScore_base _ _ _ _ ?_ ?_ ?_
        | positivity
  · split
    · exact updateConditionScore_male _ h
    · exact finalInv_of_base _ h

theorem melasmaSunStep_final (r : Resps) (s : String → CondScore)
    (h : FinalInv s) : FinalInv (melasmaSunStep r s) := by
  simp only [melasmaSunStep]
  repeat
    first
      | exact h
      | split
      | refine updateConditionScore_final _ _ _ _ ?_ ?_ ?_
      | positivity

theorem calculateMelasmaScore_final (r : Resps) (s : String → CondScore)
    (h : BaseInv s) : FinalInv (calculateMelasmaScore r s) :=
  melasmaSunStep_final r _ (melasmaGenderAgeStep_final r _
    (melasmaPregnancyStep_base r _ (melasmaTriggersStep_base r _
      (melasmaLocationStep_base r _ (melasmaPatchesStep_base r _
        (melasmaScreeningStep_base r _ h))))))

/-- C2 (amended): after a full scoring pass over any responses, every stored
confidence factor lies in [0, 1] and every stored score lies in [-3, 100];
every condition other than melasma stays within [0, 100], and only the melasma
male adjustment can push the melasma score below 0, never below -3.  The floor
of 0 claimed by the spec holds only at report time, where non-positive scores
are filtered out. -/
theorem C2_amended_bounds :
    ∀ (r : Resps) (c : String),
      -3 ≤ (calculateAllScores r c).score ∧ (calculateAllScores r c).score ≤ 100 ∧
      0 ≤ (calculateAllScores r c).cf ∧ (calculateAllScores r c).cf ≤ 1 ∧
      (c ≠ "melasma" → 0 ≤ (calculateAllScores r c).score) := by
  intro r c
  have hb : BaseInv (calculateAcneScore r (calculatePsoriasisScore r
      (calculateEczemaScore r (calculateRosaceaScore r
        (calculateVitiligoScore r initScores))))) :=
    calculateAcneScore_base r _ (calculatePsoriasisScore_base r _
      (calculateEczemaScore_base r _ (calculateRosaceaScore_base r _
        (calculateVitiligoScore_base r _ baseInv_initScores))))
  have hf : FinalInv (calculateAllScores r) := by
    unfold calculateAllScores
    exact calculateMelasmaScore_final r _ hb
  exact hf c

/-- C2 amended witness: with no answers at all, the vitiligo entry stays at
score 0, inside [0, 100]. -/
theorem C2_amended_bounds_witness :
    0 ≤ (calculateAllScores emptyResps "vitiligo").score :=
  (C2_amended_bounds emptyResps "vitiligo").2.2.2.2 (by decide)

/-! ## C7 -/

theorem engineStep_completionInv (s t : EngineState) (h : CompletionInv s)
    (hst : EngineStep s t) : CompletionInv t := by
  cases hst <;>
    simp_all [CompletionInv, askQuestion, changePhase, processLifestyleAction]

theorem reachable_completionInv (s : EngineState)
    (h : Relation.ReflTransGen EngineStep initialEngineState s) : CompletionInv s := by
  induction h with
  | refl => simp [CompletionInv, initialEngineState]
  | tail hab hbc ih => exact engineStep_completionInv _ _ ih hbc

/-- C7 counterexample: the service-side phase restore reaches, in one session
transition from a fresh engine, a state whose phase is COMPLETE while none of
the ConditionScore, SkinProfile or RecommendationGenerated facts is present, so
the claimed invariant fails for session-reachable states and a resumed
completed session re-enters COMPLETE on empty working memory. -/
theorem C7_counterexample :
    Relation.ReflTransGen SessionStep initialEngineState
      (restoreCurrentPhase initialEngineState .complete) ∧
    (restoreCurrentPhase initialEngineState .complete).phase = some .complete ∧
    (restoreCurrentPhase initialEngineState .complete).hasConditionScore = false ∧
    (restoreCurrentPhase initialEngineState .complete).hasSkinProfile = false ∧
    (restoreCurrentPhase initialEngineState .complete).hasRecommendation = false :=
  ⟨Relation.ReflTransGen.single (SessionStep.restore _ _), rfl, rfl, rfl, rfl⟩

/-- C7 (amended): in every state reachable from a fresh start through the
engine's own rule firings and answer feeds, the phase is COMPLETE only when the
ConditionScore, SkinProfile and RecommendationGenerated facts are all present;
the service-level phase restore is the only transition that violates this. -/
theorem C7_rule_reachability_invariant :
    ∀ s : EngineState, Relation.ReflTransGen EngineStep initialEngineState s →
      s.phase = some .complete →
      s.hasConditionScore = true ∧ s.hasSkinProfile = true ∧
        s.hasRecommendation = true := by
  intro s h hc
  obtain ⟨h1, h2, h3⟩ := reachable_completionInv s h
  obtain ⟨ha, hb, hcc⟩ := h3 hc
  exact ⟨hb, hcc, ha⟩

theorem demoReach : ∃ s : EngineState,
    Relation.ReflTransGen EngineStep initialEngineState s ∧
      s.phase = some QPhase.complete := by
  have h0 : Relation.ReflTransGen EngineStep initialEngineState initialEngineState :=
    Relation.ReflTransGen.refl
  have h1 := h0.tail (EngineStep.askScreeningQuestion _ rfl (by decide))
  have h2 := h1.tail (EngineStep.feedAnswerStep _ "screening_main" [1])
  have h3 := h2.tail (EngineStep.moveToBasicInfo _ rfl (by decide) (Or.inl (by decide)))
  have h4 := h3.tail (EngineStep.askAge _ rfl (by decide))
  have h5 := h4.tail (EngineStep.askGender _ rfl (by decide))
  have h6 := h5.tail (EngineStep.askSkinTone _ rfl (by decide))
  have h7 := h6.tail (EngineStep.askFamilyHistory _ rfl (by decide))
  have h8 := h7.tail (EngineStep.moveToSpecificConditions _ rfl (by decide))
  have h9 := h8.tail (EngineStep.moveToOilinessAssessment _ rfl)
  have h10 := h9.tail (EngineStep.askTZoneOiliness _ rfl (by decide))
  have h11 := h10.tail (EngineStep.askCheekOiliness _ rfl (by decide))
  have h12 := h11.tail (EngineStep.askPoreSize _ rfl (by decide))
  have h13 := h12.tail (EngineStep.moveToSensitivityAssessment _ rfl (by decide))
  have h14 := h13.tail (EngineStep.askProductSensitivity _ rfl (by decide))
  have h15 := h14.tail (EngineStep.feedAnswerStep _ "product_sensitivity" [1])
  have h16 := h15.tail
    (EngineStep.moveToHydrationAssessment _ rfl (by decide) (Or.inl (by decide)))
  have h17 := h16.tail (EngineStep.askDrynessFeeling _ rfl (by decide))
  have h18 := h17.tail (EngineStep.feedAnswerStep _ "dryness_feeling" [1])
  have h19 := h18.tail
    (EngineStep.moveToLifestyleAssessment _ rfl (by decide) (Or.inl (by decide)))
  have h20 := h19.tail (EngineStep.processLifestyleData _ rfl rfl)
  have h21 := h20.tail (EngineStep.calculateConditionScores _ rfl rfl)
  have h22 := h21.tail (EngineStep.determineSkinProfileRule _ rfl rfl rfl)
  have h23 := h22.tail (EngineStep.generateRecommendationsRule _ rfl rfl rfl rfl)
  have h24 := h23.tail (EngineStep.moveToComplete _ rfl rfl)
  exact ⟨_, h24, rfl⟩

/-- C7 amended witness: a full demo run reaches COMPLETE with all three
analysis facts present. -/
theorem C7_rule_reachability_invariant_witness :
    ∃ s : EngineState, s.hasConditionScore = true ∧ s.hasSkinProfile = true ∧
      s.hasRecommendation = true := by
  obtain ⟨s, hr, hc⟩ := demoReach
  exact ⟨s, C7_rule_reachability_invariant s hr hc⟩

end Dermazeen
